import Mathlib

/-!
Verification of the simulation kernel of the `abstreet` repository
(`sim/src/spawn.rs`, `sim/src/sim.rs`, `map_model/src/building.rs`) against its
natural-language specification.

The data model and the operations are shallowly embedded: pure Rust functions
become Lean functions, `&mut` state becomes explicit state passing, fallible
code (`Result`, `unwrap`, `panic!`-style assertions) returns `Option` or
`Except`, and machine integers become `Nat` (no overflow is relevant here).
Distances (`si::Meter<f64>`) are modelled as rationals `ℚ`.

External collaborators that the kernel only consumes through interfaces (the
map/geometry library, the parking and trip engines, the pathfinder) are
modelled as structures of function fields, used exactly at the call sites the
source uses.
-/

namespace AbStreet

/-- `Tick` — modelled from the spec: a non-negative integer count of timesteps
(`Tick` lives in `sim/src/lib.rs`, not among the sources); `Tick::next`
advances by one timestep and `Tick::is_multiple_of` tests divisibility. -/
abbrev Tick := Nat

/-- `Tick::next`: the following tick. -/
def Tick.next (t : Tick) : Tick := t + 1

/-- `Tick::is_multiple_of`: whether this tick is a whole multiple of `other`. -/
def Tick.is_multiple_of (t other : Tick) : Bool := t % other == 0

/-- `CarID(pub usize)`. -/
structure CarID where
  id : Nat
  deriving DecidableEq, Repr

/-- `PedestrianID(pub usize)`. -/
structure PedestrianID where
  id : Nat
  deriving DecidableEq, Repr

/-- `TripID(pub usize)`. -/
structure TripID where
  id : Nat
  deriving DecidableEq, Repr

/-- `BuildingID(pub usize)` (from `map_model/src/building.rs`). -/
structure BuildingID where
  id : Nat
  deriving DecidableEq, Repr

/-- `LaneID(pub usize)`. -/
structure LaneID where
  id : Nat
  deriving DecidableEq, Repr

/-- `RoadID(pub usize)`. -/
structure RoadID where
  id : Nat
  deriving DecidableEq, Repr

/-- `IntersectionID(pub usize)`. -/
structure IntersectionID where
  id : Nat
  deriving DecidableEq, Repr

/-- `BusStopID`. -/
structure BusStopID where
  id : Nat
  deriving DecidableEq, Repr

/-- `BusRouteID(pub usize)`. -/
structure BusRouteID where
  id : Nat
  deriving DecidableEq, Repr

/-- `AgentID`: tagged union over cars and pedestrians. -/
inductive AgentID where
  | Car (c : CarID)
  | Pedestrian (p : PedestrianID)
  deriving DecidableEq, Repr

/-- `LaneType` from the map library. -/
inductive LaneType where
  | Driving
  | Parking
  | Sidewalk
  | Biking
  | Bus
  deriving DecidableEq, Repr

/-- `VehicleType`. -/
inductive VehicleType where
  | Car
  | Bus
  | Bike
  deriving DecidableEq, Repr

/-- `Position`: a point on a lane, `(LaneID, distance along the lane)`. -/
structure Position where
  lane : LaneID
  dist_along : ℚ
  deriving DecidableEq, Repr

/-- `Vehicle`: `(CarID, VehicleType, length, max_speed)`. -/
structure Vehicle where
  id : CarID
  vehicle_type : VehicleType
  length : ℚ
  max_speed : Option ℚ
  deriving DecidableEq, Repr

/-- `ParkingSpot`: `(LaneID, spot index)`. -/
structure ParkingSpot where
  lane : LaneID
  idx : Nat
  deriving DecidableEq, Repr

/-- `ParkedCar`: a car in a parking spot, optionally owned by a building. -/
structure ParkedCar where
  car : CarID
  spot : ParkingSpot
  vehicle : Vehicle
  owner : Option BuildingID
  deriving DecidableEq, Repr

/-- `SidewalkSpot` (from `sim/src/walking.rs`, not among the sources).
Modelled from the spec: a tagged variant (building, parking spot, bike rack,
bus stop, border), each yielding a concrete sidewalk `Position`. The variant
payload is abstracted to a `Nat` tag; the kernel code under verification only
reads `sidewalk_pos` and passes spots through unchanged. -/
structure SidewalkSpot where
  connection : Nat
  sidewalk_pos : Position
  deriving DecidableEq, Repr

/-- `DrivingGoal`: park near a building, or leave at a border lane. -/
inductive DrivingGoal where
  | ParkNear (b : BuildingID)
  | Border (i : IntersectionID) (l : LaneID)
  deriving DecidableEq, Repr

/-- `PathRequest`: `{start, end, can_use_bike_lanes, can_use_bus_lanes}`. -/
structure PathRequest where
  start : Position
  «end» : Position
  can_use_bike_lanes : Bool
  can_use_bus_lanes : Bool
  deriving DecidableEq, Repr

/-- `Path`: opaque data produced by the external `Pathfinder`.
`current_step_lane` models `path.current_step().as_traversable().as_lane()`,
the only query the spawner makes of a path; `token` stands for the rest of the
opaque route data. -/
structure Path where
  current_step_lane : LaneID
  token : Nat
  deriving DecidableEq, Repr

/-- `Router` values constructed by the spawner (`sim/src/router.rs` is
external); one constructor per `Router::make_*` used in `spawn.rs`. -/
inductive Router where
  | make_router_to_park (path : Path) (b : BuildingID)
  | make_router_to_border (path : Path)
  | make_bike_router (path : Path) (dist : ℚ)
  | make_router_for_bus (path : Path)
  deriving DecidableEq, Repr

/-- `CreateCar` (from `sim/src/driving.rs`): everything needed to spawn a car. -/
structure CreateCar where
  car : CarID
  trip : TripID
  owner : Option BuildingID
  maybe_parked_car : Option ParkedCar
  vehicle : Vehicle
  start : Position
  router : Router
  deriving DecidableEq, Repr

/-- `CreatePedestrian` (from `sim/src/walking.rs`): everything needed to spawn
a pedestrian. -/
structure CreatePedestrian where
  id : PedestrianID
  trip : TripID
  start : SidewalkSpot
  goal : SidewalkSpot
  path : Path
  deriving DecidableEq, Repr

/-- `scheduler::Command` (from `sim/src/scheduler.rs`, not among the sources).
Modelled from the spec: `SpawnCar(at, CreateCar)` or
`SpawnPed(at, CreatePedestrian)` with the already-computed path. -/
inductive SchedCommand where
  | SpawnCar («at» : Tick) (c : CreateCar)
  | SpawnPed («at» : Tick) (p : CreatePedestrian)
  deriving DecidableEq, Repr

/-- The scheduler state, modelled from the spec as the sequence of commands
enqueued into it (`scheduler.rs` is not among the sources; the claims only
observe the order in which the spawner forwards commands). -/
abbrev SchedulerState := List SchedCommand

/-- `scheduler::Scheduler::enqueue_command`, modelled from the spec: record
the command; the scheduler drains due commands later. -/
def SchedulerState.enqueue_command (q : SchedulerState) (c : SchedCommand) : SchedulerState :=
  q ++ [c]

/-- `TripLeg` — modelled from the spec (§3; `sim/src/trips.rs` is not among
the sources): one segment of a trip in a single mode. -/
inductive TripLeg where
  | Walk (spot : SidewalkSpot)
  | Drive (parked : ParkedCar) (goal : DrivingGoal)
  | Bike (vehicle : Vehicle) (goal : DrivingGoal)
  | RideBus (route : BusRouteID) (stop : BusStopID)
  | DriveFromBorder (car : CarID) (goal : DrivingGoal)
  | ServeBusRoute (car : CarID) (route : BusRouteID)
  deriving DecidableEq, Repr

/-- `enum Command` of `sim/src/spawn.rs`: the spawner's deferred commands,
each carrying its scheduled tick `at`. -/
inductive Command where
  | Walk («at» : Tick) (trip : TripID) (ped : PedestrianID)
      (start : SidewalkSpot) (goal : SidewalkSpot)
  | Drive («at» : Tick) (trip : TripID) (parked_car : ParkedCar) (goal : DrivingGoal)
  | DriveFromBorder («at» : Tick) (trip : TripID) (car : CarID) (vehicle : Vehicle)
      (start : LaneID) (goal : DrivingGoal)
  | Bike («at» : Tick) (trip : TripID) (start_sidewalk : Position) (vehicle : Vehicle)
      (goal : DrivingGoal)
  deriving DecidableEq, Repr

/-- `Command::at`. -/
def Command.«at» : Command → Tick
  | .Walk t _ _ _ _ => t
  | .Drive t _ _ _ => t
  | .DriveFromBorder t _ _ _ _ _ => t
  | .Bike t _ _ _ _ => t

/-- One record of the
`error!("Couldn't find path from {} to {} for {:?}", req.start, req.end, cmd)`
log statement in `Spawner::step`: the request endpoints and the command whose
path was not found. -/
structure LogError where
  start : Position
  «end» : Position
  cmd : Command
  deriving DecidableEq, Repr

/-- `Lane` from the map library; only its length is consumed by the kernel. -/
structure Lane where
  length : ℚ
  deriving DecidableEq, Repr

/-- `Road` from the map library: its id and its child lanes with their types,
forwards then backwards, exactly the fields `spawn.rs` iterates over. -/
structure Road where
  id : RoadID
  children_forwards : List (LaneID × LaneType)
  children_backwards : List (LaneID × LaneType)
  deriving DecidableEq, Repr

/-- `FrontPath` (from `map_model/src/building.rs`): the building's connection
to its sidewalk. `spawn.rs` reads `front_path.sidewalk` as a sidewalk
`Position` (and calls `equiv_pos` on it); the purely geometric `line` field is
omitted. -/
structure FrontPath where
  bldg : BuildingID
  sidewalk : Position
  dist_along_sidewalk : ℚ
  deriving DecidableEq, Repr

/-- `Building` (from `map_model/src/building.rs`); the geometry and OSM tag
fields are omitted, the kernel reads only `front_path`. -/
structure Building where
  id : BuildingID
  front_path : FrontPath
  deriving DecidableEq, Repr

/-- The external map library interface (`map_model`), §6 of the spec: the
queries the kernel makes, as uninterpreted function fields. `find_closest_lane`
is modelled total because every call site in `spawn.rs` unwraps its result;
`find_closest_lane_to_bldg` keeps its `Result`, because
`find_driving_lane_near_building` and `find_biking_goal_near_building` branch
on it. `equiv_pos` and the `SidewalkSpot` constructors are modelled from the
spec (`Position::equiv_pos` projects a position onto a parallel lane;
`SidewalkSpot::building/bus_stop/bike_rack` yield sidewalk spots); their
sources are not under `src/`. `road_count` bounds the breadth-first searches:
`get_next_roads` must stay within the map's `road_count` roads. -/
structure Map where
  get_l : LaneID → Lane
  get_r : RoadID → Road
  get_b : BuildingID → Building
  building_to_road : BuildingID → RoadID
  find_closest_lane : LaneID → List LaneType → LaneID
  find_closest_lane_to_bldg : BuildingID → List LaneType → Option LaneID
  get_next_roads : RoadID → List RoadID
  equiv_pos : Position → LaneID → Position
  shortest_distance : PathRequest → Option Path
  sidewalk_spot_building : BuildingID → SidewalkSpot
  sidewalk_spot_bus_stop : BusStopID → SidewalkSpot
  sidewalk_spot_bike_rack : Position → SidewalkSpot
  road_count : Nat

/-- The parking engine's state (`sim/src/parking.rs` is not among the
sources): abstract. -/
abbrev ParkingSimState := Nat

/-- The operations the kernel invokes on the parking engine
(`sim/src/parking.rs` is not among the sources), as uninterpreted function
fields over the abstract state. `sidewalk_spot_parking` models
`SidewalkSpot::parking_spot(spot, map, parking_sim)`. -/
structure ParkingOps where
  spot_to_driving_pos : ParkingSimState → ParkingSpot → Vehicle → LaneID → Position
  get_car_at_spot : ParkingSimState → ParkingSpot → Option ParkedCar
  sidewalk_spot_parking : ParkingSimState → ParkingSpot → SidewalkSpot

/-- The trip manager's state (`sim/src/trips.rs` is not among the sources):
abstract. -/
abbrev TripManagerState := Nat

/-- The `TripManager` interface — modelled from the spec (§4.2;
`sim/src/trips.rs` is not among the sources): allocation, the double-spawn
guard, and the leg-transition queries, as uninterpreted function fields over
the abstract state. -/
structure TripOps where
  new_trip : TripManagerState → Tick → Option PedestrianID → List TripLeg →
    TripManagerState × TripID
  get_trip_using_car : TripManagerState → CarID → Option TripID
  ped_finished_bus_ride : TripManagerState → PedestrianID →
    TripManagerState × TripID × SidewalkSpot
  car_reached_parking_spot : TripManagerState → CarID →
    TripManagerState × TripID × PedestrianID × SidewalkSpot
  bike_reached_end : TripManagerState → CarID →
    TripManagerState × TripID × PedestrianID × SidewalkSpot
  ped_ready_to_bike : TripManagerState → PedestrianID →
    TripManagerState × TripID × Vehicle × DrivingGoal
  ped_reached_parking_spot : TripManagerState → PedestrianID →
    TripManagerState × TripID × DrivingGoal

/-- One step of enqueueing the next roads in the BFS loops of `spawn.rs`:
for each road returned by `map.get_next_roads(r)`, if it is not yet visited,
push it onto the back of the queue and mark it visited. -/
def bfsPushNext (map : Map) (r : RoadID) (queue visited : List RoadID) :
    List RoadID × List RoadID :=
  (map.get_next_roads r).foldl
    (fun acc next_r =>
      if acc.2.contains next_r then acc
      else (acc.1 ++ [next_r], acc.2 ++ [next_r]))
    (queue, visited)

/-- The BFS loop of `find_driving_lane_near_building`: pop the front road,
return the first `Driving` child lane (forwards then backwards) if any, else
enqueue the unvisited next roads and continue. `none` covers both the
`panic!` on an exhausted queue and fuel exhaustion (the source loop
terminates because the road graph is finite; fuel `map.road_count + 1`
suffices since every road is visited at most once). -/
def findDrivingLaneLoop (map : Map) :
    Nat → List RoadID → List RoadID → Option LaneID
  | 0, _, _ => none
  | _ + 1, [], _ => none
  | fuel + 1, rId :: rest, visited =>
    let r := map.get_r rId
    match (r.children_forwards ++ r.children_backwards).find?
        (fun p => p.2 == LaneType.Driving) with
    | some p => some p.1
    | none =>
      let next := bfsPushNext map r.id rest visited
      findDrivingLaneLoop map fuel next.1 next.2

/-- `find_driving_lane_near_building`: the closest driving lane to the
building if the map has one, otherwise BFS out from the building's road for
the first road with a driving child lane. -/
def find_driving_lane_near_building (b : BuildingID) (map : Map) : Option LaneID :=
  match map.find_closest_lane_to_bldg b [LaneType.Driving] with
  | some l => some l
  | none =>
    let start := map.building_to_road b
    findDrivingLaneLoop map (map.road_count + 1) [start] [start]

/-- The BFS loop of `find_biking_goal_near_building`: like
`findDrivingLaneLoop` but accepting `Driving` or `Biking` child lanes and
returning the midpoint of the found lane ("just stop in the middle of that
road and walk the rest of the way"). -/
def findBikingGoalLoop (map : Map) :
    Nat → List RoadID → List RoadID → Option Position
  | 0, _, _ => none
  | _ + 1, [], _ => none
  | fuel + 1, rId :: rest, visited =>
    let r := map.get_r rId
    match (r.children_forwards ++ r.children_backwards).find?
        (fun p => p.2 == LaneType.Driving || p.2 == LaneType.Biking) with
    | some p => some (Position.mk p.1 ((map.get_l p.1).length / 2))
    | none =>
      let next := bfsPushNext map r.id rest visited
      findBikingGoalLoop map fuel next.1 next.2

/-- `find_biking_goal_near_building`: if the map finds a closest
driving-or-biking lane to the building, project the building's front-path
sidewalk position onto it; otherwise BFS for the first road with a
driving/biking child lane and stop at its midpoint. -/
def find_biking_goal_near_building (b : BuildingID) (map : Map) : Option Position :=
  match map.find_closest_lane_to_bldg b [LaneType.Driving, LaneType.Biking] with
  | some l => some (map.equiv_pos (map.get_b b).front_path.sidewalk l)
  | none =>
    let start := map.building_to_road b
    findBikingGoalLoop map (map.road_count + 1) [start] [start]

/-- `Command::get_pathfinding_request`: derive the `PathRequest` (endpoints
and lane permissions) for a spawner command. `none` models a panic inside the
source (an `unwrap` failure or a BFS `panic!`). -/
def Command.get_pathfinding_request (cmd : Command) (map : Map) (pops : ParkingOps)
    (parking_sim : ParkingSimState) : Option PathRequest :=
  match cmd with
  | .Walk _ _ _ start goal =>
    some { start := start.sidewalk_pos
           «end» := goal.sidewalk_pos
           can_use_bike_lanes := false
           can_use_bus_lanes := false }
  | .Drive _ _ parked_car goal =>
    let start_lane := map.find_closest_lane parked_car.spot.lane [LaneType.Driving]
    match goal with
    | .ParkNear b =>
      match find_driving_lane_near_building b map with
      | some goal_lane =>
        some { start := pops.spot_to_driving_pos parking_sim parked_car.spot
                 parked_car.vehicle start_lane
               «end» := Position.mk goal_lane (map.get_l goal_lane).length
               can_use_bike_lanes := false
               can_use_bus_lanes := false }
      | none => none
    | .Border _ l =>
      some { start := pops.spot_to_driving_pos parking_sim parked_car.spot
               parked_car.vehicle start_lane
             «end» := Position.mk l (map.get_l l).length
             can_use_bike_lanes := false
             can_use_bus_lanes := false }
  | .Bike _ _ start_sidewalk vehicle goal =>
    let start_lane := map.find_closest_lane start_sidewalk.lane
      [LaneType.Driving, LaneType.Biking]
    let start := map.equiv_pos start_sidewalk start_lane
    let maybe_end := match goal with
      | .ParkNear b => find_biking_goal_near_building b map
      | .Border _ l => some (Position.mk l (map.get_l l).length)
    match maybe_end with
    | some e =>
      some { start := start
             «end» := e
             can_use_bus_lanes := false
             can_use_bike_lanes := true }
    | none => none
  | .DriveFromBorder _ _ _ vehicle start goal =>
    let maybe_goal_lane := match goal with
      | .ParkNear b => find_driving_lane_near_building b map
      | .Border _ l => some l
    match maybe_goal_lane with
    | some goal_lane =>
      some { start := Position.mk start 0
             «end» := Position.mk goal_lane (map.get_l goal_lane).length
             can_use_bus_lanes := vehicle.vehicle_type == VehicleType.Bus
             can_use_bike_lanes := vehicle.vehicle_type == VehicleType.Bike }
    | none => none

/-- The ordering `sim/src/spawn.rs` sorts the command queue by:
`commands.sort_by(|a, b| b.at().cmp(&a.at()))`, i.e. descending by scheduled
tick. -/
def commandOrder (a b : Command) : Prop := b.«at» ≤ a.«at»

instance : DecidableRel commandOrder := fun a b => Nat.decLe _ _

/-- `struct Spawner`: the command queue (ordered descending by time) and the
monotone id counters. -/
structure Spawner where
  commands : List Command
  car_id_counter : Nat
  ped_id_counter : Nat
  deriving DecidableEq, Repr

/-- `Spawner::empty`. -/
def Spawner.empty : Spawner :=
  { commands := [], car_id_counter := 0, ped_id_counter := 0 }

/-- `Spawner::enqueue_command`: push the command and re-sort the whole vector
descending by `at`. Rust's `sort_by` is a stable sort, and
`List.insertionSort` with the reflexive total order `commandOrder` is stable,
so both produce the identical vector. -/
def Spawner.enqueue_command (s : Spawner) (cmd : Command) : Spawner :=
  { s with commands := List.insertionSort commandOrder (s.commands ++ [cmd]) }

/-- The drain loop of `Spawner::step` — it pops commands off the END of the
vector while the last command's `at` equals `now` — expressed on the reversed
vector (head of the reversed list = end of the vector). Returns the popped
commands in pop order and the un-popped remainder (still reversed). -/
def drainDueRev (now : Tick) : List Command → List Command × List Command
  | [] => ([], [])
  | cmd :: rest =>
    if now = cmd.«at» then
      let r := drainDueRev now rest
      (cmd :: r.1, r.2)
    else ([], cmd :: rest)

/-- The drain loop of `Spawner::step` on the vector itself: the popped
commands in pop order, and the remaining vector in its original order. -/
def drainDue (commands : List Command) (now : Tick) : List Command × List Command :=
  let r := drainDueRev now commands.reverse
  (r.1, r.2.reverse)

/-- `calculate_paths`: fan the path requests out to the pathfinder; the
parallel `par_iter().map().collect()` is order-preserving, so it is a plain
map. -/
def calculate_paths (map : Map) (requests : List PathRequest) : List (Option Path) :=
  requests.map (fun req => map.shortest_distance req)

/-- The per-command body of the dispatch loop in `Spawner::step`, for a
command whose path was found: build the `SpawnCar`/`SpawnPed` scheduler
command at tick `now`. -/
def spawnCommandFor (now : Tick) (map : Map) (pops : ParkingOps)
    (parking_sim : ParkingSimState) (cmd : Command) (req : PathRequest)
    (path : Path) : SchedCommand :=
  match cmd with
  | .Drive _ trip parked_car goal =>
    let car := parked_car.car
    let start_lane := path.current_step_lane
    let start := pops.spot_to_driving_pos parking_sim parked_car.spot
      parked_car.vehicle start_lane
    .SpawnCar now
      { car := car
        trip := trip
        owner := parked_car.owner
        maybe_parked_car := some parked_car
        vehicle := parked_car.vehicle
        start := start
        router := match goal with
          | .ParkNear b => .make_router_to_park path b
          | .Border _ _ => .make_router_to_border path }
  | .DriveFromBorder _ trip car vehicle start goal =>
    .SpawnCar now
      { car := car
        trip := trip
        owner := none
        maybe_parked_car := none
        vehicle := vehicle
        start := Position.mk start 0
        router := match goal with
          | .ParkNear b =>
            if vehicle.vehicle_type == VehicleType.Bike then
              .make_bike_router path req.«end».dist_along
            else
              .make_router_to_park path b
          | .Border _ _ => .make_router_to_border path }
  | .Bike _ trip _ vehicle goal =>
    .SpawnCar now
      { car := vehicle.id
        trip := trip
        owner := none
        maybe_parked_car := none
        vehicle := vehicle
        start := req.start
        router := match goal with
          | .ParkNear _ => .make_bike_router path req.«end».dist_along
          | .Border _ _ => .make_router_to_border path }
  | .Walk _ trip ped start goal =>
    .SpawnPed now
      { id := ped
        trip := trip
        start := start
        goal := goal
        path := path }

/-- The dispatch loop of `Spawner::step` over
`commands.zip(requests.zip(paths))`: each command with a found path yields a
scheduler command, each command without one yields an error-log record; both
sequences keep the iteration order. -/
def spawnResults (now : Tick) (map : Map) (pops : ParkingOps)
    (parking_sim : ParkingSimState) :
    List (Command × PathRequest × Option Path) → List SchedCommand × List LogError
  | [] => ([], [])
  | (cmd, req, maybe_path) :: rest =>
    let r := spawnResults now map pops parking_sim rest
    match maybe_path with
    | some path => (spawnCommandFor now map pops parking_sim cmd req path :: r.1, r.2)
    | none => (r.1, { start := req.start, «end» := req.«end», cmd := cmd } :: r.2)

/-- `Spawner::step`: drain all commands scheduled for `now` off the end of
the queue (computing each one's path request as it is popped), compute the
paths, and dispatch. Returns the new spawner, the scheduler commands
forwarded (in order) and the error-log records; `none` models a panic while
deriving a path request. -/
def Spawner.step (s : Spawner) (now : Tick) (map : Map) (pops : ParkingOps)
    (parking_sim : ParkingSimState) :
    Option (Spawner × List SchedCommand × List LogError) :=
  let drained := drainDue s.commands now
  match drained.1.mapM (fun c => c.get_pathfinding_request map pops parking_sim) with
  | none => none
  | some requests =>
    let s1 := { s with commands := drained.2 }
    if drained.1.isEmpty then some (s1, [], [])
    else
      let paths := calculate_paths map requests
      let r := spawnResults now map pops parking_sim (drained.1.zip (requests.zip paths))
      some (s1, r.1, r.2)

/-- The result of `Spawner::start_trip_using_parked_car`: the early return
when the car already belongs to a trip (a warning is logged), the
`assert_eq!(parked.owner, Some(start_bldg))` panic, or the updated spawner
and trip manager. -/
inductive StartTripResult where
  | duplicate (trip : TripID)
  | panicked
  | started (spawner : Spawner) (tm : TripManagerState)
  deriving Repr

/-- `Spawner::start_trip_using_parked_car`: refuse double-spawns, assert the
parked car is owned by the start building, then allocate a pedestrian id,
build the legs (walk to the spot, drive, and — for `ParkNear` — walk to the
goal building) and enqueue the single initial `Walk` command at `at`. -/
def Spawner.start_trip_using_parked_car (s : Spawner) («at» : Tick) (map : Map)
    (parked : ParkedCar) (pops : ParkingOps) (parking_sim : ParkingSimState)
    (start_bldg : BuildingID) (goal : DrivingGoal) (tops : TripOps)
    (tm : TripManagerState) : StartTripResult :=
  match tops.get_trip_using_car tm parked.car with
  | some trip => .duplicate trip
  | none =>
    if parked.owner = some start_bldg then
      let ped_id := PedestrianID.mk s.ped_id_counter
      let s1 := { s with ped_id_counter := s.ped_id_counter + 1 }
      let parking_spot := pops.sidewalk_spot_parking parking_sim parked.spot
      let legs := [TripLeg.Walk parking_spot, TripLeg.Drive parked goal] ++
        (match goal with
          | .ParkNear b => [TripLeg.Walk (map.sidewalk_spot_building b)]
          | .Border _ _ => [])
      let r := tops.new_trip tm «at» (some ped_id) legs
      .started
        (s1.enqueue_command
          (.Walk «at» r.2 ped_id (map.sidewalk_spot_building start_bldg) parking_spot))
        r.1
    else .panicked

/-- `Spawner::ped_finished_bus_ride` (trip transition): enqueue the follow-on
walk from the bus stop at the NEXT tick. -/
def Spawner.ped_finished_bus_ride (s : Spawner) («at» : Tick) (ped : PedestrianID)
    (stop : BusStopID) (tops : TripOps) (tm : TripManagerState) (map : Map) :
    Spawner × TripManagerState :=
  let r := tops.ped_finished_bus_ride tm ped
  (s.enqueue_command
      (.Walk «at».next r.2.1 ped (map.sidewalk_spot_bus_stop stop) r.2.2),
    r.1)

/-- `Spawner::car_reached_parking_spot` (trip transition): enqueue the
follow-on walk from the parking spot at the NEXT tick. -/
def Spawner.car_reached_parking_spot (s : Spawner) («at» : Tick) (p : ParkedCar)
    (map : Map) (pops : ParkingOps) (parking_sim : ParkingSimState)
    (tops : TripOps) (tm : TripManagerState) : Spawner × TripManagerState :=
  let r := tops.car_reached_parking_spot tm p.car
  (s.enqueue_command
      (.Walk «at».next r.2.1 r.2.2.1
        (pops.sidewalk_spot_parking parking_sim p.spot) r.2.2.2),
    r.1)

/-- `Spawner::bike_reached_end` (trip transition): enqueue the follow-on walk
from the bike rack (the last driving position projected onto the closest
sidewalk) at the NEXT tick. -/
def Spawner.bike_reached_end (s : Spawner) («at» : Tick) (bike : CarID)
    (last_driving_pos : Position) (map : Map) (tops : TripOps)
    (tm : TripManagerState) : Spawner × TripManagerState :=
  let r := tops.bike_reached_end tm bike
  let sidewalk := map.find_closest_lane last_driving_pos.lane [LaneType.Sidewalk]
  (s.enqueue_command
      (.Walk «at».next r.2.1 r.2.2.1
        (map.sidewalk_spot_bike_rack (map.equiv_pos last_driving_pos sidewalk))
        r.2.2.2),
    r.1)

/-- `Spawner::ped_ready_to_bike` (trip transition): enqueue the bike leg at
the NEXT tick. -/
def Spawner.ped_ready_to_bike (s : Spawner) («at» : Tick) (ped : PedestrianID)
    (sidewalk_pos : Position) (tops : TripOps) (tm : TripManagerState) :
    Spawner × TripManagerState :=
  let r := tops.ped_ready_to_bike tm ped
  (s.enqueue_command (.Bike «at».next r.2.1 sidewalk_pos r.2.2.1 r.2.2.2), r.1)

/-- `Spawner::ped_reached_parking_spot` (trip transition): enqueue the drive
leg, using the car parked at the spot, at the NEXT tick; `none` models the
`unwrap` panic when no car is at the spot. -/
def Spawner.ped_reached_parking_spot (s : Spawner) («at» : Tick)
    (ped : PedestrianID) (spot : ParkingSpot) (pops : ParkingOps)
    (parking_sim : ParkingSimState) (tops : TripOps) (tm : TripManagerState) :
    Option (Spawner × TripManagerState) :=
  let r := tops.ped_reached_parking_spot tm ped
  match pops.get_car_at_spot parking_sim spot with
  | none => none
  | some parked =>
    some (s.enqueue_command (.Drive «at».next r.2.1 parked r.2.2), r.1)

/-- `Spawner::is_done`. -/
def Spawner.is_done (s : Spawner) : Bool := s.commands.isEmpty

/-- Abstract states of the engines whose sources are not under `src/`
(`driving.rs`, `walking.rs`, `intersections.rs`, `transit.rs`, `view.rs`) and
of the RNG. -/
abbrev DrivingSimState := Nat

/-- Abstract walking engine state. -/
abbrev WalkingSimState := Nat

/-- Abstract intersection engine state. -/
abbrev IntersectionSimState := Nat

/-- Abstract transit engine state. -/
abbrev TransitSimState := Nat

/-- Abstract per-tick `WorldView`. -/
abbrev WorldView := Nat

/-- Abstract `XorShiftRng` state. -/
abbrev RngState := Nat

/-- An event emitted during a tick. The two constructors the orchestrator
itself pushes are explicit; events produced inside the engines are abstract. -/
inductive Event where
  | CarReachedParkingSpot (car : CarID) (spot : ParkingSpot)
  | PedReachedParkingSpot (ped : PedestrianID) (spot : ParkingSpot)
  | EngineEvent (tag : Nat)
  deriving DecidableEq, Repr

/-- A 2D point, for the per-trip stats digest. -/
abbrev Pt2D := ℚ × ℚ

/-- `SimStats`: the per-tick digest `{time, canonical point per trip}`. -/
structure SimStats where
  time : Tick
  canonical_pt_per_trip : List (TripID × Pt2D)
  deriving DecidableEq, Repr

/-- The behaviors of the sub-engines `Sim::inner_step` drives, as
uninterpreted function fields (their sources are not under `src/`); each step
takes the states the Rust method borrows and returns the states it may
mutate plus the events it pushes. `driving_step` and `walking_step` return
`Option`, modelling their `Result` (an inner error). `driving_step` also
returns the `(newly_parked, at_border, done_biking)` outcome lists,
`walking_step` the `(reached_parking, ready_to_bike)` outcome lists. -/
structure Engines where
  scheduler_step : SchedulerState → Tick → ParkingSimState → WalkingSimState →
    DrivingSimState → TripManagerState →
    SchedulerState × ParkingSimState × WalkingSimState × DrivingSimState ×
      TripManagerState × List Event
  driving_step : DrivingSimState → WorldView → Tick → ParkingSimState →
    IntersectionSimState → TransitSimState → RngState → Option AgentID →
    Option (DrivingSimState × WorldView × IntersectionSimState × TransitSimState ×
      RngState × Option AgentID × List Event × List ParkedCar × List CarID ×
      List (CarID × Position))
  parking_add_parked_car : ParkingSimState → ParkedCar → ParkingSimState
  trips_car_reached_border : TripManagerState → CarID → Tick → TripManagerState
  walking_populate_view : WalkingSimState → WorldView → WorldView
  walking_step : WalkingSimState → Tick → IntersectionSimState → TripManagerState →
    Option AgentID →
    Option (WalkingSimState × IntersectionSimState × TripManagerState ×
      Option AgentID × List Event × List (PedestrianID × ParkingSpot) ×
      List (PedestrianID × Position))
  transit_step : TransitSimState → Tick → WalkingSimState → TripManagerState →
    Spawner → TransitSimState × WalkingSimState × TripManagerState × Spawner × List Event
  intersection_step : IntersectionSimState → Tick → WorldView →
    IntersectionSimState × List Event
  collect_stats : Tick → DrivingSimState → WalkingSimState → TripManagerState → SimStats

/-- `struct Sim` (`sim/src/sim.rs`): the orchestrator owning every component
state. The `#[derivative(PartialEq = "ignore")]` attributes sit on `rng` and
`run_name`. -/
structure Sim where
  rng : RngState
  time : Tick
  map_name : String
  edits_name : String
  run_name : String
  savestate_every : Option Tick
  stats : SimStats
  spawner : Spawner
  scheduler : SchedulerState
  intersection_state : IntersectionSimState
  driving_state : DrivingSimState
  parking_state : ParkingSimState
  walking_state : WalkingSimState
  transit_state : TransitSimState
  trips_state : TripManagerState
  current_agent_for_debugging : Option AgentID
  deriving DecidableEq, Repr

/-- The derived `PartialEq` of `Sim`: structural equality over every field
EXCEPT `rng` and `run_name`, which carry `#[derivative(PartialEq = "ignore")]`. -/
def simPartialEq (a b : Sim) : Prop :=
  a.time = b.time ∧ a.map_name = b.map_name ∧ a.edits_name = b.edits_name ∧
  a.savestate_every = b.savestate_every ∧ a.stats = b.stats ∧
  a.spawner = b.spawner ∧ a.scheduler = b.scheduler ∧
  a.intersection_state = b.intersection_state ∧
  a.driving_state = b.driving_state ∧ a.parking_state = b.parking_state ∧
  a.walking_state = b.walking_state ∧ a.transit_state = b.transit_state ∧
  a.trips_state = b.trips_state ∧
  a.current_agent_for_debugging = b.current_agent_for_debugging

/-- The `for p in newly_parked` loop of `Sim::inner_step`: push the
`CarReachedParkingSpot` event, add the parked car to the parking inventory,
and run the spawner's `car_reached_parking_spot` transition. -/
def processNewlyParked (eng : Engines) (map : Map) (pops : ParkingOps)
    (tops : TripOps) (now : Tick) :
    List ParkedCar →
    ParkingSimState × Spawner × TripManagerState × List Event →
    ParkingSimState × Spawner × TripManagerState × List Event
  | [], acc => acc
  | p :: rest, (parking, spawner, tm, events) =>
    let events1 := events ++ [Event.CarReachedParkingSpot p.car p.spot]
    let parking1 := eng.parking_add_parked_car parking p
    let r := spawner.car_reached_parking_spot now p map pops parking1 tops tm
    processNewlyParked eng map pops tops now rest (parking1, r.1, r.2, events1)

/-- The `for (ped, spot) in reached_parking` loop of `Sim::inner_step`: push
the `PedReachedParkingSpot` event and run the spawner's
`ped_reached_parking_spot` transition; `none` models its `unwrap` panic. -/
def processReachedParking (pops : ParkingOps) (tops : TripOps) (now : Tick)
    (parking : ParkingSimState) :
    List (PedestrianID × ParkingSpot) →
    Spawner × TripManagerState × List Event →
    Option (Spawner × TripManagerState × List Event)
  | [], acc => some acc
  | (ped, spot) :: rest, (spawner, tm, events) =>
    let events1 := events ++ [Event.PedReachedParkingSpot ped spot]
    match spawner.ped_reached_parking_spot now ped spot pops parking tops tm with
    | none => none
    | some r => processReachedParking pops tops now parking rest (r.1, r.2, events1)

/-- The `for (bike, last_pos) in done_biking` loop. -/
def processDoneBiking (map : Map) (tops : TripOps) (now : Tick) :
    List (CarID × Position) → Spawner × TripManagerState →
    Spawner × TripManagerState
  | [], acc => acc
  | (bike, last_pos) :: rest, (spawner, tm) =>
    processDoneBiking map tops now rest (spawner.bike_reached_end now bike last_pos map tops tm)

/-- The `for (ped, sidewalk_pos) in ready_to_bike` loop. -/
def processReadyToBike (tops : TripOps) (now : Tick) :
    List (PedestrianID × Position) → Spawner × TripManagerState →
    Spawner × TripManagerState
  | [], acc => acc
  | (ped, pos) :: rest, (spawner, tm) =>
    processReadyToBike tops now rest (spawner.ped_ready_to_bike now ped pos tops tm)

/-- The bundle of states and events the engine part of one tick produces
(everything in `Sim::inner_step` before `time := time.next()`). -/
structure InnerStepOutcome where
  rng : RngState
  spawner : Spawner
  scheduler : SchedulerState
  intersection_state : IntersectionSimState
  driving_state : DrivingSimState
  parking_state : ParkingSimState
  walking_state : WalkingSimState
  transit_state : TransitSimState
  trips_state : TripManagerState
  current_agent_for_debugging : Option AgentID
  events : List Event
  deriving Repr

/-- The engine part of `Sim::inner_step`, in the fixed sub-step order of the
source: spawner, scheduler, driving (with its three outcome loops), walking
populate + step (with its two outcome loops), transit, intersections over
the pre-update `WorldView`; `none` models an inner error or panic
propagating out (the orchestrator aborts). -/
def Sim.innerStepEngines (eng : Engines) (map : Map) (pops : ParkingOps) (tops : TripOps)
    (s : Sim) : Option InnerStepOutcome :=
  let view : WorldView := 0
  match s.spawner.step s.time map pops s.parking_state with
  | none => none
  | some (spawner1, newSched, _errs) =>
    let scheduler1 := newSched.foldl SchedulerState.enqueue_command s.scheduler
    let sch := eng.scheduler_step scheduler1 s.time s.parking_state s.walking_state
      s.driving_state s.trips_state
    match eng.driving_step sch.2.2.2.1 view s.time sch.2.1 s.intersection_state
        s.transit_state s.rng s.current_agent_for_debugging with
    | none => none
    | some (driving2, view1, inter1, transit1, rng1, dbg1, drivingEvents,
        newly_parked, at_border, done_biking) =>
      let np := processNewlyParked eng map pops tops s.time newly_parked
        (sch.2.1, spawner1, sch.2.2.2.2.1, [])
      let trips3 := at_border.foldl
        (fun tm c => eng.trips_car_reached_border tm c s.time) np.2.2.1
      let db := processDoneBiking map tops s.time done_biking (np.2.1, trips3)
      let view2 := eng.walking_populate_view sch.2.2.1 view1
      match eng.walking_step sch.2.2.1 s.time inter1 db.2 dbg1 with
      | none => none
      | some (walking2, inter2, trips4, dbg2, walkingEvents, reached_parking,
          ready_to_bike) =>
        match processReachedParking pops tops s.time np.1 reached_parking
            (db.1, trips4, []) with
        | none => none
        | some rp =>
          let rtb := processReadyToBike tops s.time ready_to_bike (rp.1, rp.2.1)
          let tr := eng.transit_step transit1 s.time walking2 rtb.2 rtb.1
          let ints := eng.intersection_step inter2 s.time view2
          let events := sch.2.2.2.2.2 ++ drivingEvents ++ np.2.2.2 ++
            walkingEvents ++ rp.2.2 ++ tr.2.2.2.2 ++ (ints.2)
          some
            { rng := rng1
              spawner := tr.2.2.2.1
              scheduler := sch.1
              intersection_state := ints.1
              driving_state := driving2
              parking_state := np.1
              walking_state := tr.2.1
              transit_state := tr.1
              trips_state := tr.2.2.1
              current_agent_for_debugging := dbg2
              events := events }

/-- `Sim::inner_step`: the engine sub-steps, then `time := time.next()`
("do this at the end of the step, so that tick 0 actually occurs"), the
stats collection, and the savestate check — AFTER incrementing the timestep
("otherwise we could repeatedly load a savestate, run a step, and invalidly
save over it"). Returns the stepped `Sim`, the events of the tick and
whether a savestate was written. -/
def Sim.inner_step (eng : Engines) (map : Map) (pops : ParkingOps) (tops : TripOps)
    (s : Sim) : Option (Sim × List Event × Bool) :=
  match Sim.innerStepEngines eng map pops tops s with
  | none => none
  | some o =>
    let time1 := s.time.next
    let stats1 := eng.collect_stats time1 o.driving_state o.walking_state o.trips_state
    let didSave := match s.savestate_every with
      | some t => time1.is_multiple_of t
      | none => false
    some
      ({ s with
          rng := o.rng
          time := time1
          stats := stats1
          spawner := o.spawner
          scheduler := o.scheduler
          intersection_state := o.intersection_state
          driving_state := o.driving_state
          parking_state := o.parking_state
          walking_state := o.walking_state
          transit_state := o.transit_state
          trips_state := o.trips_state
          current_agent_for_debugging := o.current_agent_for_debugging },
        o.events, didSave)

/-- `Sim::step`: `self.inner_step(map).unwrap()` — a successful call is an
`inner_step` returning `some`; `none` makes the caller abort. -/
def Sim.step (eng : Engines) (map : Map) (pops : ParkingOps) (tops : TripOps)
    (s : Sim) : Option (Sim × List Event × Bool) :=
  Sim.inner_step eng map pops tops s

/-- The `Ord` order on the `(Tick, String)` pairs that
`Sim::find_all_savestates` sorts with `results.sort()`: lexicographic — by
tick, ties by path. -/
def savestateOrder (a b : Tick × String) : Prop :=
  a.1 < b.1 ∨ (a.1 = b.1 ∧ a.2 ≤ b.2)

instance : DecidableRel savestateOrder := fun a b => by
  unfold savestateOrder; infer_instance

instance : IsTotal (Tick × String) savestateOrder where
  total a b := by
    rcases Nat.lt_trichotomy a.1 b.1 with h | h | h
    · exact Or.inl (Or.inl h)
    · rcases le_total a.2 b.2 with h2 | h2
      · exact Or.inl (Or.inr ⟨h, h2⟩)
      · exact Or.inr (Or.inr ⟨h.symm, h2⟩)
    · exact Or.inr (Or.inl h)

instance : IsTrans (Tick × String) savestateOrder where
  trans a b c hab hbc := by
    rcases hab with h1 | ⟨e1, l1⟩
    · rcases hbc with h2 | ⟨e2, _⟩
      · exact Or.inl (h1.trans h2)
      · exact Or.inl (e2 ▸ h1)
    · rcases hbc with h2 | ⟨e2, l2⟩
      · exact Or.inl (e1 ▸ h2)
      · exact Or.inr ⟨e1.trans e2, l1.trans l2⟩

/-- `Sim::find_all_savestates`: the directory listing — modelled as the list
of `(tick parsed from the filename, full path)` pairs, the reading of the
directory itself being I/O — sorted ascending (`results.sort()`), earliest
first. -/
def find_all_savestates (entries : List (Tick × String)) : List (Tick × String) :=
  List.insertionSort savestateOrder entries

/-- `Sim::find_previous_savestate`: sort, reverse, and return the first path
whose tick is strictly before `base_time`; an I/O error (`Except.error`) when
none is. -/
def find_previous_savestate (entries : List (Tick × String)) (base_time : Tick) :
    Except String String :=
  let list := (find_all_savestates entries).reverse
  match list.find? (fun p => decide (p.1 < base_time)) with
  | some p => .ok p.2
  | none => .error "no savestate before base_time"

/-! ### Concrete test fixtures

Small closed instances of the external interfaces, used to evaluate the
definitions at concrete inputs (witnesses and counterexamples). -/

/-- A concrete map: every lane 100 long, every path found trivially,
`equiv_pos` keeps the distance along (the projection preserves the distance
from the shared road reference), the closest lane to any building is lane 0,
and every building's front path meets its sidewalk 10 from the start. -/
def testMap : Map :=
  { get_l := fun _ => ⟨100⟩
    get_r := fun r => ⟨r, [], []⟩
    get_b := fun b => ⟨b, ⟨b, ⟨⟨0⟩, 10⟩, 10⟩⟩
    building_to_road := fun b => ⟨b.id⟩
    find_closest_lane := fun l _ => l
    find_closest_lane_to_bldg := fun _ _ => some ⟨0⟩
    get_next_roads := fun _ => []
    equiv_pos := fun p l => ⟨l, p.dist_along⟩
    shortest_distance := fun req => some ⟨req.start.lane, 0⟩
    sidewalk_spot_building := fun b => ⟨b.id, ⟨⟨0⟩, 0⟩⟩
    sidewalk_spot_bus_stop := fun st => ⟨st.id, ⟨⟨0⟩, 0⟩⟩
    sidewalk_spot_bike_rack := fun p => ⟨0, p⟩
    road_count := 1 }

/-- Like `testMap`, but no path is ever found. -/
def testMapNoPath : Map :=
  { testMap with shortest_distance := fun _ => none }

/-- A concrete parking engine. -/
def testParkingOps : ParkingOps :=
  { spot_to_driving_pos := fun _ _ _ l => ⟨l, 5⟩
    get_car_at_spot := fun _ spot =>
      some ⟨⟨7⟩, spot, ⟨⟨7⟩, VehicleType.Car, 4, none⟩, some ⟨3⟩⟩
    sidewalk_spot_parking := fun _ spot => ⟨spot.idx, ⟨spot.lane, 1⟩⟩ }

/-- A concrete trip manager. -/
def testTripOps : TripOps :=
  { new_trip := fun tm _ _ _ => (tm + 1, ⟨tm⟩)
    get_trip_using_car := fun _ _ => none
    ped_finished_bus_ride := fun tm _ => (tm, ⟨0⟩, ⟨0, ⟨⟨0⟩, 0⟩⟩)
    car_reached_parking_spot := fun tm _ => (tm, ⟨0⟩, ⟨0⟩, ⟨0, ⟨⟨0⟩, 0⟩⟩)
    bike_reached_end := fun tm _ => (tm, ⟨0⟩, ⟨0⟩, ⟨0, ⟨⟨0⟩, 0⟩⟩)
    ped_ready_to_bike := fun tm _ =>
      (tm, ⟨0⟩, ⟨⟨0⟩, VehicleType.Bike, 1, none⟩, .ParkNear ⟨0⟩)
    ped_reached_parking_spot := fun tm _ => (tm, ⟨0⟩, .ParkNear ⟨0⟩) }

/-- Concrete no-op engines: every sub-step succeeds and changes nothing. -/
def testEngines : Engines :=
  { scheduler_step := fun q _ pk w d tm => (q, pk, w, d, tm, [])
    driving_step := fun d v _ _ i tr rng dbg =>
      some (d, v, i, tr, rng, dbg, [], [], [], [])
    parking_add_parked_car := fun pk _ => pk
    trips_car_reached_border := fun tm _ _ => tm
    walking_populate_view := fun _ v => v
    walking_step := fun w _ i tm dbg => some (w, i, tm, dbg, [], [], [])
    transit_step := fun t _ w tm sp => (t, w, tm, sp, [])
    intersection_step := fun i _ _ => (i, [])
    collect_stats := fun t _ _ _ => ⟨t, []⟩ }

/-- A concrete empty `Sim` at tick 0 with `savestate_every = Some(2)`. -/
def testSim : Sim :=
  { rng := 0
    time := 0
    map_name := "montlake"
    edits_name := "no_edits"
    run_name := "run1"
    savestate_every := some 2
    stats := ⟨0, []⟩
    spawner := .empty
    scheduler := []
    intersection_state := 0
    driving_state := 0
    parking_state := 0
    walking_state := 0
    transit_state := 0
    trips_state := 0
    current_agent_for_debugging := none }

/-- `testSim` with `savestate_every = Some(1)`, so the first step saves. -/
def testSimEvery1 : Sim :=
  { testSim with savestate_every := some 1 }

/-- Two distinct `Walk` commands both scheduled for tick 5. -/
def walkCmdA : Command :=
  .Walk 5 ⟨0⟩ ⟨0⟩ ⟨0, ⟨⟨0⟩, 0⟩⟩ ⟨0, ⟨⟨1⟩, 0⟩⟩

/-- The second command, enqueued after `walkCmdA`. -/
def walkCmdB : Command :=
  .Walk 5 ⟨1⟩ ⟨1⟩ ⟨0, ⟨⟨2⟩, 0⟩⟩ ⟨0, ⟨⟨3⟩, 0⟩⟩

/-- The spawner holding `walkCmdA` then `walkCmdB`, enqueued in that order. -/
def twoCommandSpawner : Spawner :=
  (Spawner.empty.enqueue_command walkCmdA).enqueue_command walkCmdB

/-- A concrete `Bike` command towards `ParkNear` of building 4. -/
def bikeCmd : Command :=
  .Bike 3 ⟨0⟩ ⟨⟨9⟩, 10⟩ ⟨⟨2⟩, VehicleType.Bike, 1, none⟩ (.ParkNear ⟨4⟩)

/-- The lane permissions the spec claims for each command variant, written
from the spec's words (for comparison against
`Command::get_pathfinding_request`): Walk and Drive forbid both, Bike
permits bike lanes only, DriveFromBorder permits bike lanes iff the vehicle
is a bike and bus lanes iff it is a bus. The pair is
`(can_use_bike_lanes, can_use_bus_lanes)`. -/
def specLanePermissions : Command → Bool × Bool
  | .Walk _ _ _ _ _ => (false, false)
  | .Drive _ _ _ _ => (false, false)
  | .Bike _ _ _ _ _ => (true, false)
  | .DriveFromBorder _ _ _ vehicle _ _ =>
    (vehicle.vehicle_type == VehicleType.Bike, vehicle.vehicle_type == VehicleType.Bus)

/-- The path request `walkCmdA` derives under `testMap`. -/
def walkReqA : PathRequest := ⟨⟨⟨0⟩, 0⟩, ⟨⟨1⟩, 0⟩, false, false⟩

/-- The path request `walkCmdB` derives under `testMap`. -/
def walkReqB : PathRequest := ⟨⟨⟨2⟩, 0⟩, ⟨⟨3⟩, 0⟩, false, false⟩

/-- The scheduler command `Spawner::step` forwards for `walkCmdA`. -/
def spawnPedA : SchedCommand :=
  .SpawnPed 5 ⟨⟨0⟩, ⟨0⟩, ⟨0, ⟨⟨0⟩, 0⟩⟩, ⟨0, ⟨⟨1⟩, 0⟩⟩, ⟨⟨0⟩, 0⟩⟩

/-- The scheduler command `Spawner::step` forwards for `walkCmdB`. -/
def spawnPedB : SchedCommand :=
  .SpawnPed 5 ⟨⟨1⟩, ⟨1⟩, ⟨0, ⟨⟨2⟩, 0⟩⟩, ⟨0, ⟨⟨3⟩, 0⟩⟩, ⟨⟨2⟩, 0⟩⟩

/-- The path request `bikeCmd` derives under `testMap`: its end is the
building's front-path position projected onto the closest lane (distance 10
along lane 0), NOT the lane's midpoint (50). -/
def bikeReq : PathRequest := ⟨⟨⟨9⟩, 10⟩, ⟨⟨0⟩, 10⟩, true, false⟩

/-- A concrete parking spot. -/
def testSpot : ParkingSpot := ⟨⟨1⟩, 0⟩

/-- The car `testParkingOps` reports at any spot, placed at `testSpot`;
owned by building 3. -/
def testParkedCar : ParkedCar :=
  ⟨⟨7⟩, testSpot, ⟨⟨7⟩, VehicleType.Car, 4, none⟩, some ⟨3⟩⟩

/-- The drive command `ped_reached_parking_spot` enqueues at tick 3 under the
test fixtures (scheduled for tick 4). -/
def prpsDriveCmd : Command := .Drive 4 ⟨0⟩ testParkedCar (.ParkNear ⟨0⟩)

/-- The spawner state after that enqueue. -/
def prpsSpawner : Spawner := ⟨[prpsDriveCmd], 0, 0⟩

/-- `testSim` after one step: the time advanced by one tick and the stats
digest recollected; nothing else changes under the no-op engines. -/
def testSimStepped : Sim := { testSim with time := 1, stats := ⟨1, []⟩ }

/-- `testSimEvery1` after one step. -/
def testSimEvery1Stepped : Sim := { testSimEvery1 with time := 1, stats := ⟨1, []⟩ }

/-! ### Helper lemmas -/

/-- Enqueueing re-sorts the pushed vector, so the new queue is a permutation
of the old queue with the command appended. -/
theorem enqueue_command_perm (s : Spawner) (c : Command) :
    (s.enqueue_command c).commands.Perm (s.commands ++ [c]) :=
  List.perm_insertionSort commandOrder _

/-- Sorting a queue whose commands all share one scheduled tick changes
nothing (the sort is stable). -/
theorem insertionSort_all_eq_at {t : Tick} :
    ∀ {l : List Command}, (∀ c ∈ l, c.«at» = t) →
      List.insertionSort commandOrder l = l := by
  intro l
  induction l with
  | nil => intro _; rfl
  | cons x xs ih =>
    intro h
    have hx : x.«at» = t := h x (List.mem_cons_self x xs)
    have hxs : ∀ c ∈ xs, c.«at» = t := fun c hc => h c (List.mem_cons_of_mem x hc)
    have hsort : List.insertionSort commandOrder xs = xs := ih hxs
    show List.orderedInsert commandOrder x (List.insertionSort commandOrder xs) = x :: xs
    rw [hsort]
    cases xs with
    | nil => rfl
    | cons y ys =>
      have hy : y.«at» = t := hxs y (List.mem_cons_self y ys)
      exact List.orderedInsert_of_le commandOrder ys
        (le_of_eq (hy.trans hx.symm))

/-- Folding `enqueue_command` over commands that all share one scheduled tick
appends them in insertion order (each intermediate stable sort is the
identity). -/
theorem foldl_enqueue_all_eq_at {t : Tick} :
    ∀ (cmds : List Command) (acc : Spawner),
      (∀ c ∈ acc.commands, c.«at» = t) → (∀ c ∈ cmds, c.«at» = t) →
      (cmds.foldl Spawner.enqueue_command acc).commands = acc.commands ++ cmds := by
  intro cmds
  induction cmds with
  | nil => intro acc _ _; simp
  | cons x xs ih =>
    intro acc hacc h
    have hx : x.«at» = t := h x (List.mem_cons_self x xs)
    have hxs : ∀ c ∈ xs, c.«at» = t := fun c hc => h c (List.mem_cons_of_mem x hc)
    have henq : (acc.enqueue_command x).commands = acc.commands ++ [x] := by
      show List.insertionSort commandOrder (acc.commands ++ [x]) = acc.commands ++ [x]
      refine insertionSort_all_eq_at (t := t) ?_
      intro c hc
      rcases List.mem_append.mp hc with hc | hc
      · exact hacc c hc
      · rcases List.mem_singleton.mp hc with rfl; exact hx
    have hrec := ih (acc.enqueue_command x)
      (by rw [henq]; intro c hc
          rcases List.mem_append.mp hc with hc | hc
          · exact hacc c hc
          · rcases List.mem_singleton.mp hc with rfl; exact hx)
      hxs
    calc ((x :: xs).foldl Spawner.enqueue_command acc).commands
        = (xs.foldl Spawner.enqueue_command (acc.enqueue_command x)).commands := rfl
      _ = (acc.enqueue_command x).commands ++ xs := hrec
      _ = (acc.commands ++ [x]) ++ xs := by rw [henq]
      _ = acc.commands ++ (x :: xs) := by simp

/-- The drain loop pops every command when all of them are due now. -/
theorem drainDueRev_all_eq_at {t : Tick} :
    ∀ {l : List Command}, (∀ c ∈ l, c.«at» = t) → drainDueRev t l = (l, []) := by
  intro l
  induction l with
  | nil => intro _; rfl
  | cons x xs ih =>
    intro h
    have hx : x.«at» = t := h x (List.mem_cons_self x xs)
    have hxs : ∀ c ∈ xs, c.«at» = t := fun c hc => h c (List.mem_cons_of_mem x hc)
    simp [drainDueRev, hx, ih hxs]

/-! ### Claim theorems -/

/-- C8: the derived `PartialEq` on `Sim` ignores the `rng` and `run_name`
fields: it is invariant under arbitrary changes of the two, and any two `Sim`
values that agree on all the other fields compare equal (every `Sim` is
`PartialEq`-equal to itself with its `rng` and `run_name` replaced
arbitrarily). -/
theorem sim_partial_eq_ignores_rng_run_name (a b : Sim) (r₁ r₂ : RngState)
    (n₁ n₂ : String) :
    (simPartialEq { a with rng := r₁, run_name := n₁ }
        { b with rng := r₂, run_name := n₂ } ↔ simPartialEq a b) ∧
      simPartialEq a { a with rng := r₂, run_name := n₂ } := by
  constructor
  · exact Iff.rfl
  · exact ⟨rfl, rfl, rfl, rfl, rfl, rfl, rfl, rfl, rfl, rfl, rfl, rfl, rfl, rfl⟩

/-- C6: a successful `Sim::step` advances `time` by exactly one TIMESTEP
(one tick), whatever the engines, map and state. -/
theorem step_advances_time_one_timestep (eng : Engines) (map : Map)
    (pops : ParkingOps) (tops : TripOps) (s s' : Sim) (ev : List Event)
    (saved : Bool) (h : Sim.step eng map pops tops s = some (s', ev, saved)) :
    s'.time = s.time + 1 := by
  unfold Sim.step Sim.inner_step at h
  cases hc : Sim.innerStepEngines eng map pops tops s with
  | none => rw [hc] at h; exact Option.noConfusion h
  | some o =>
    simp only [hc, Option.some.injEq, Prod.mk.injEq] at h
    obtain ⟨h1, -, -⟩ := h
    rw [← h1]
    rfl

/-- C6 witness: stepping the concrete test `Sim` advances its time from 0 to
1. -/
theorem step_advances_time_one_timestep_witness : testSimStepped.time = testSim.time + 1 :=
  step_advances_time_one_timestep testEngines testMap testParkingOps testTripOps
    testSim testSimStepped [] false (by decide)

/-- C3: with `savestate_every = Some(T)`, a successful step saves a savestate
iff the post-advance time `time + 1` is a multiple of `T`; the save happens
after the advance (the stepped state's time already is `time + 1`, a
different tick from the pre-step time), so a state loaded at a save tick and
stepped once does not save back onto the same tick. -/
theorem savestate_after_advance (eng : Engines) (map : Map) (pops : ParkingOps)
    (tops : TripOps) (s s' : Sim) (T : Tick) (ev : List Event) (saved : Bool)
    (hT : s.savestate_every = some T)
    (h : Sim.inner_step eng map pops tops s = some (s', ev, saved)) :
    (saved = true ↔ (s.time + 1) % T = 0) ∧ s'.time = s.time + 1 ∧
      s'.time ≠ s.time := by
  unfold Sim.inner_step at h
  cases hc : Sim.innerStepEngines eng map pops tops s with
  | none => rw [hc] at h; exact Option.noConfusion h
  | some o =>
    simp only [hc, hT, Option.some.injEq, Prod.mk.injEq] at h
    obtain ⟨h1, -, h3⟩ := h
    refine ⟨?_, by rw [← h1]; rfl, by rw [← h1]; exact Nat.succ_ne_self s.time⟩
    rw [← h3]
    simp [Tick.is_multiple_of, Tick.next]

/-- C3 witness: the concrete test `Sim` with `savestate_every = Some(1)`
saves on its first step, the save tick being the advanced time 1. -/
theorem savestate_after_advance_witness :
    (true = true ↔ (testSimEvery1.time + 1) % 1 = 0) ∧
      testSimEvery1Stepped.time = testSimEvery1.time + 1 ∧
      testSimEvery1Stepped.time ≠ testSimEvery1.time :=
  savestate_after_advance testEngines testMap testParkingOps testTripOps
    testSimEvery1 testSimEvery1Stepped 1 [] true rfl (by decide)

/-- C1 counterexample: two distinct `Walk` commands, both scheduled for tick
5 and enqueued in the order A then B, are forwarded to the scheduler in the
order B then A — the REVERSE of their insertion order — refuting the claim
that equal-`at` commands are processed in insertion order. -/
theorem spawner_equal_tick_insertion_order_cex :
    walkCmdA.«at» = walkCmdB.«at» ∧ walkCmdA ≠ walkCmdB ∧
      Spawner.step twoCommandSpawner 5 testMap testParkingOps 0
        = some (Spawner.empty, [spawnPedB, spawnPedA], []) ∧
      spawnPedA ≠ spawnPedB := by
  refine ⟨by decide, by decide, by decide, by decide⟩

/-- C1 (amended): commands enqueued with the same scheduled tick `at` are
popped (and hence processed and forwarded) by `Spawner::step` in REVERSE
insertion order: the queue is stable-sorted descending by `at` and popped
from the end, so among equal ticks the most recently enqueued command pops
first. -/
theorem spawner_equal_tick_reverse_insertion_order (cmds : List Command)
    (t : Tick) (h : ∀ c ∈ cmds, c.«at» = t) :
    drainDue (cmds.foldl Spawner.enqueue_command Spawner.empty).commands t
      = (cmds.reverse, []) := by
  have hfold := foldl_enqueue_all_eq_at (t := t) cmds Spawner.empty
    (by intro c hc; cases hc) h
  have hrev : ∀ c ∈ cmds.reverse, c.«at» = t :=
    fun c hc => h c (List.mem_reverse.mp hc)
  unfold drainDue
  rw [hfold]
  show (_, _) = _
  rw [show Spawner.empty.commands ++ cmds = cmds from rfl]
  rw [drainDueRev_all_eq_at hrev]
  rfl

/-- C1 (amended) witness: draining the two-command spawner at tick 5 yields
the reversed insertion order. -/
theorem spawner_equal_tick_reverse_insertion_order_witness :
    drainDue ([walkCmdA, walkCmdB].foldl Spawner.enqueue_command Spawner.empty).commands 5
      = ([walkCmdB, walkCmdA], []) :=
  spawner_equal_tick_reverse_insertion_order [walkCmdA, walkCmdB] 5 (by decide)

/-- C5: every `PathRequest` a command derives carries exactly the claimed
lane permissions — Walk and Drive forbid bike and bus lanes, Bike permits
bike lanes only, DriveFromBorder permits bus lanes iff the vehicle is a bus
and bike lanes iff it is a bike. -/
theorem pathfinding_request_lane_permissions (map : Map) (pops : ParkingOps)
    (parking_sim : ParkingSimState) (cmd : Command) (req : PathRequest)
    (h : cmd.get_pathfinding_request map pops parking_sim = some req) :
    (req.can_use_bike_lanes, req.can_use_bus_lanes) = specLanePermissions cmd := by
  cases cmd
  all_goals simp only [Command.get_pathfinding_request] at h
  all_goals repeat' split at h
  all_goals try exact Option.noConfusion h
  all_goals simp only [Option.some.injEq] at h
  all_goals rw [← h]
  all_goals rfl

/-- C5 witness: the concrete walk command derives a request with both
permissions off, matching the claimed permissions. -/
theorem pathfinding_request_lane_permissions_witness :
    Command.get_pathfinding_request walkCmdA testMap testParkingOps 0 = some walkReqA ∧
      (walkReqA.can_use_bike_lanes, walkReqA.can_use_bus_lanes)
        = specLanePermissions walkCmdA :=
  ⟨by decide,
    pathfinding_request_lane_permissions testMap testParkingOps 0 walkCmdA walkReqA
      (by decide)⟩

/-- C9: when the parked car is not already part of a trip,
`start_trip_using_parked_car` panics (the `assert_eq!`) exactly when
`parked.owner ≠ Some(start_bldg)`; under the precondition
`parked.owner = Some(start_bldg)` it starts the trip and enqueues exactly one
command, a `Walk` at tick `at` from the start building's sidewalk spot to the
parking spot's sidewalk spot. -/
theorem start_trip_using_parked_car_assert (s : Spawner) (t : Tick) (map : Map)
    (parked : ParkedCar) (pops : ParkingOps) (parking_sim : ParkingSimState)
    (start_bldg : BuildingID) (goal : DrivingGoal) (tops : TripOps)
    (tm : TripManagerState)
    (hguard : tops.get_trip_using_car tm parked.car = none) :
    (s.start_trip_using_parked_car t map parked pops parking_sim start_bldg goal
        tops tm = .panicked ↔ parked.owner ≠ some start_bldg) ∧
      (parked.owner = some start_bldg →
        ∃ sp2 tm2 trip c,
          s.start_trip_using_parked_car t map parked pops parking_sim start_bldg
              goal tops tm = .started sp2 tm2 ∧
            c = Command.Walk t trip (PedestrianID.mk s.ped_id_counter)
              (map.sidewalk_spot_building start_bldg)
              (pops.sidewalk_spot_parking parking_sim parked.spot) ∧
            sp2.commands.Perm (s.commands ++ [c])) := by
  unfold Spawner.start_trip_using_parked_car
  rw [hguard]
  by_cases howner : parked.owner = some start_bldg
  · rw [if_pos howner]
    constructor
    · simp [howner]
    · intro _
      refine ⟨_, _, _, _, rfl, rfl, enqueue_command_perm _ _⟩
  · rw [if_neg howner]
    simp [howner]

/-- C9 witness: with the test fixtures (the parked car owned by building 3,
started from building 3, car in no trip) the call starts the trip and
enqueues one `Walk` command. -/
theorem start_trip_using_parked_car_assert_witness :
    (Spawner.empty.start_trip_using_parked_car 2 testMap testParkedCar
          testParkingOps 0 ⟨3⟩ (.Border ⟨0⟩ ⟨5⟩) testTripOps 0 = .panicked ↔
        testParkedCar.owner ≠ some ⟨3⟩) ∧
      (testParkedCar.owner = some ⟨3⟩ →
        ∃ sp2 tm2 trip c,
          Spawner.empty.start_trip_using_parked_car 2 testMap testParkedCar
              testParkingOps 0 ⟨3⟩ (.Border ⟨0⟩ ⟨5⟩) testTripOps 0
              = .started sp2 tm2 ∧
            c = Command.Walk 2 trip (PedestrianID.mk Spawner.empty.ped_id_counter)
              (testMap.sidewalk_spot_building ⟨3⟩)
              (testParkingOps.sidewalk_spot_parking 0 testParkedCar.spot) ∧
            sp2.commands.Perm (Spawner.empty.commands ++ [c])) :=
  start_trip_using_parked_car_assert Spawner.empty 2 testMap testParkedCar
    testParkingOps 0 ⟨3⟩ (.Border ⟨0⟩ ⟨5⟩) testTripOps 0 (by decide)

/-- C10: every trip-transition method of the `Spawner`
(`ped_finished_bus_ride`, `car_reached_parking_spot`, `bike_reached_end`,
`ped_ready_to_bike`, `ped_reached_parking_spot`) enqueues exactly one
follow-on command, scheduled for `at.next()` — one tick after the completing
tick, never the current tick. -/
theorem trip_transitions_enqueue_next_tick (s : Spawner) (t : Tick) (map : Map)
    (pops : ParkingOps) (parking_sim : ParkingSimState) (tops : TripOps)
    (tm : TripManagerState) (ped : PedestrianID) (stop : BusStopID)
    (p : ParkedCar) (bike : CarID) (pos last_pos : Position) (spot : ParkingSpot)
    (sp2 : Spawner) (tm2 : TripManagerState) :
    (∃ c, (s.ped_finished_bus_ride t ped stop tops tm map).1.commands.Perm
        (s.commands ++ [c]) ∧ c.«at» = t.next ∧ c.«at» ≠ t) ∧
      (∃ c, (s.car_reached_parking_spot t p map pops parking_sim tops tm).1.commands.Perm
        (s.commands ++ [c]) ∧ c.«at» = t.next ∧ c.«at» ≠ t) ∧
      (∃ c, (s.bike_reached_end t bike last_pos map tops tm).1.commands.Perm
        (s.commands ++ [c]) ∧ c.«at» = t.next ∧ c.«at» ≠ t) ∧
      (∃ c, (s.ped_ready_to_bike t ped pos tops tm).1.commands.Perm
        (s.commands ++ [c]) ∧ c.«at» = t.next ∧ c.«at» ≠ t) ∧
      (s.ped_reached_parking_spot t ped spot pops parking_sim tops tm
          = some (sp2, tm2) →
        ∃ c, sp2.commands.Perm (s.commands ++ [c]) ∧ c.«at» = t.next ∧ c.«at» ≠ t) := by
  refine ⟨?_, ?_, ?_, ?_, ?_⟩
  · refine ⟨_, enqueue_command_perm _ _, ?_, ?_⟩
    · rfl
    · exact Nat.succ_ne_self t
  · refine ⟨_, enqueue_command_perm _ _, ?_, ?_⟩
    · rfl
    · exact Nat.succ_ne_self t
  · refine ⟨_, enqueue_command_perm _ _, ?_, ?_⟩
    · rfl
    · exact Nat.succ_ne_self t
  · refine ⟨_, enqueue_command_perm _ _, ?_, ?_⟩
    · rfl
    · exact Nat.succ_ne_self t
  intro h
  unfold Spawner.ped_reached_parking_spot at h
  cases hc : pops.get_car_at_spot parking_sim spot with
  | none => rw [hc] at h; exact Option.noConfusion h
  | some parked =>
    simp only [hc, Option.some.injEq, Prod.mk.injEq] at h
    obtain ⟨h1, -⟩ := h
    refine ⟨_, h1 ▸ enqueue_command_perm _ _, ?_, ?_⟩
    · rfl
    · exact Nat.succ_ne_self t

/-- C10 witness: the five transitions at tick 3 under the test fixtures all
enqueue one command scheduled for tick 4. -/
theorem trip_transitions_enqueue_next_tick_witness :
    (∃ c, (Spawner.empty.ped_finished_bus_ride 3 ⟨0⟩ ⟨0⟩ testTripOps 0
        testMap).1.commands.Perm (Spawner.empty.commands ++ [c]) ∧
        c.«at» = Tick.next 3 ∧ c.«at» ≠ 3) ∧
      (∃ c, (Spawner.empty.car_reached_parking_spot 3 testParkedCar testMap
        testParkingOps 0 testTripOps 0).1.commands.Perm
        (Spawner.empty.commands ++ [c]) ∧ c.«at» = Tick.next 3 ∧ c.«at» ≠ 3) ∧
      (∃ c, (Spawner.empty.bike_reached_end 3 ⟨1⟩ ⟨⟨0⟩, 0⟩ testMap testTripOps
        0).1.commands.Perm (Spawner.empty.commands ++ [c]) ∧
        c.«at» = Tick.next 3 ∧ c.«at» ≠ 3) ∧
      (∃ c, (Spawner.empty.ped_ready_to_bike 3 ⟨0⟩ ⟨⟨0⟩, 0⟩ testTripOps
        0).1.commands.Perm (Spawner.empty.commands ++ [c]) ∧
        c.«at» = Tick.next 3 ∧ c.«at» ≠ 3) ∧
      (∃ c, prpsSpawner.commands.Perm (Spawner.empty.commands ++ [c]) ∧
        c.«at» = Tick.next 3 ∧ c.«at» ≠ 3) := by
  have h := trip_transitions_enqueue_next_tick Spawner.empty 3 testMap
    testParkingOps 0 testTripOps 0 ⟨0⟩ ⟨0⟩ testParkedCar ⟨1⟩ ⟨⟨0⟩, 0⟩ ⟨⟨0⟩, 0⟩
    testSpot prpsSpawner 0
  exact ⟨h.1, h.2.1, h.2.2.1, h.2.2.2.1, h.2.2.2.2 (by decide)⟩

/-- Every position the BFS fallback of `find_biking_goal_near_building`
returns is the midpoint of some lane ("just stop in the middle of that road"). -/
theorem findBikingGoalLoop_midpoint (map : Map) :
    ∀ (fuel : Nat) (queue visited : List RoadID) (pos : Position),
      findBikingGoalLoop map fuel queue visited = some pos →
      pos.dist_along = (map.get_l pos.lane).length / 2 := by
  intro fuel
  induction fuel with
  | zero => intro q v pos h; exact Option.noConfusion h
  | succ n ih =>
    intro q v pos h
    cases q with
    | nil => exact Option.noConfusion h
    | cons rId rest =>
      simp only [findBikingGoalLoop] at h
      cases hf : (((map.get_r rId).children_forwards ++
          (map.get_r rId).children_backwards).find?
            (fun p => p.2 == LaneType.Driving || p.2 == LaneType.Biking)) with
      | some p =>
        rw [hf] at h
        simp only [Option.some.injEq] at h
        rw [← h]
      | none =>
        rw [hf] at h
        exact ih _ _ _ h

/-- C2 counterexample: a concrete `Bike` command towards `ParkNear(4)` on a
map where the closest driving-or-biking lane to building 4 exists; the
produced request ends at distance 10 along lane 0 (the building's front-path
position projected onto that lane), not at the lane's midpoint 50 — refuting
the claim that the end is always the midpoint. -/
theorem bike_parknear_midpoint_cex :
    Command.get_pathfinding_request bikeCmd testMap testParkingOps 0 = some bikeReq ∧
      bikeReq.«end».dist_along ≠ (testMap.get_l bikeReq.«end».lane).length / 2 :=
  ⟨by decide, by norm_num [bikeReq, testMap]⟩

/-- C2 (amended): for a `Bike` command with goal `ParkNear(b)`, the produced
request ends at the building's front-path sidewalk position projected onto
the closest driving-or-biking lane when the map finds one directly;
otherwise (only when no such closest lane exists) at the midpoint (length/2)
of the first driving-or-biking lane found by BFS near `b`. -/
theorem bike_parknear_goal_position (map : Map) (pops : ParkingOps)
    (parking_sim : ParkingSimState) (t : Tick) (trip : TripID) (sp : Position)
    (v : Vehicle) (b : BuildingID) (req : PathRequest)
    (h : (Command.Bike t trip sp v (.ParkNear b)).get_pathfinding_request map
        pops parking_sim = some req) :
    (∃ l, map.find_closest_lane_to_bldg b [LaneType.Driving, LaneType.Biking]
          = some l ∧
        req.«end» = map.equiv_pos (map.get_b b).front_path.sidewalk l) ∨
      req.«end».dist_along = (map.get_l req.«end».lane).length / 2 := by
  simp only [Command.get_pathfinding_request] at h
  cases he : find_biking_goal_near_building b map with
  | none => rw [he] at h; exact Option.noConfusion h
  | some e =>
    rw [he] at h
    simp only [Option.some.injEq] at h
    unfold find_biking_goal_near_building at he
    cases hcl : map.find_closest_lane_to_bldg b [LaneType.Driving, LaneType.Biking] with
    | some l =>
      left
      rw [hcl] at he
      simp only [Option.some.injEq] at he
      exact ⟨l, rfl, by rw [← h, ← he]⟩
    | none =>
      right
      rw [hcl] at he
      rw [← h]
      exact findBikingGoalLoop_midpoint map _ _ _ _ he

/-- C2 (amended) witness: under the test map the closest-lane branch fires
and the end is the projected front-path position. -/
theorem bike_parknear_goal_position_witness :
    (∃ l, testMap.find_closest_lane_to_bldg ⟨4⟩ [LaneType.Driving, LaneType.Biking]
          = some l ∧
        bikeReq.«end» = testMap.equiv_pos (testMap.get_b ⟨4⟩).front_path.sidewalk l) ∨
      bikeReq.«end».dist_along = (testMap.get_l bikeReq.«end».lane).length / 2 :=
  bike_parknear_goal_position testMap testParkingOps 0 3 ⟨0⟩ ⟨⟨9⟩, 10⟩
    ⟨⟨2⟩, VehicleType.Bike, 1, none⟩ ⟨4⟩ bikeReq (by decide)

/-- The error-log records `Spawner::step` emits are exactly one per
no-path command, in iteration order, carrying the request endpoints and the
command. -/
theorem spawnResults_errs (now : Tick) (map : Map) (pops : ParkingOps)
    (parking_sim : ParkingSimState) :
    ∀ L : List (Command × PathRequest × Option Path),
      (spawnResults now map pops parking_sim L).2
        = (L.filter (fun x => x.2.2.isNone)).map
            (fun x => { start := x.2.1.start, «end» := x.2.1.«end», cmd := x.1 }) := by
  intro L
  induction L with
  | nil => rfl
  | cons x rest ih =>
    obtain ⟨cmd, req, mp⟩ := x
    cases mp <;> simp [spawnResults, ih]

/-- The scheduler commands `Spawner::step` forwards are exactly one per
found-path command. -/
theorem spawnResults_scheds_length (now : Tick) (map : Map) (pops : ParkingOps)
    (parking_sim : ParkingSimState) :
    ∀ L : List (Command × PathRequest × Option Path),
      (spawnResults now map pops parking_sim L).1.length
        = (L.filter (fun x => x.2.2.isSome)).length := by
  intro L
  induction L with
  | nil => rfl
  | cons x rest ih =>
    obtain ⟨cmd, req, mp⟩ := x
    cases mp <;> simp [spawnResults, ih]

/-- Each dispatched command yields exactly one scheduler command or exactly
one error record. -/
theorem spawnResults_length (now : Tick) (map : Map) (pops : ParkingOps)
    (parking_sim : ParkingSimState) :
    ∀ L : List (Command × PathRequest × Option Path),
      (spawnResults now map pops parking_sim L).1.length
          + (spawnResults now map pops parking_sim L).2.length = L.length := by
  intro L
  induction L with
  | nil => rfl
  | cons x rest ih =>
    obtain ⟨cmd, req, mp⟩ := x
    cases mp <;> simp [spawnResults] <;> omega

/-- `mapM` over `Option` preserves the length. -/
theorem mapM_option_length {α β : Type} (f : α → Option β) :
    ∀ {l : List α} {l2 : List β}, l.mapM f = some l2 → l2.length = l.length := by
  intro l
  induction l with
  | nil => intro l2 h; simp only [List.mapM_nil, Option.pure_def, Option.some.injEq] at h; rw [← h]; rfl
  | cons x xs ih =>
    intro l2 h
    simp only [List.mapM_cons, Option.pure_def, Option.bind_eq_bind] at h
    cases hx : f x with
    | none => rw [hx] at h; exact Option.noConfusion h
    | some y =>
      rw [hx] at h
      simp only [Option.some_bind] at h
      cases hxs : xs.mapM f with
      | none => rw [hxs] at h; exact Option.noConfusion h
      | some ys =>
        rw [hxs] at h
        simp only [Option.some_bind, Option.some.injEq] at h
        rw [← h]
        simp [ih hxs]

/-- C4: when every due command's path request is derived without panicking,
`Spawner::step` returns normally (no kernel error), drops the due commands
from the queue, emits exactly one error-log record — carrying the request
endpoints and the command — for each command whose path computation found no
path, and forwards exactly one scheduler command for each command whose path
was found: a no-path command contributes no `SpawnCar`/`SpawnPed`, only a
log record, and the simulation continues. -/
theorem no_path_logs_and_skips (s : Spawner) (now : Tick) (map : Map)
    (pops : ParkingOps) (parking_sim : ParkingSimState) (reqs : List PathRequest)
    (hreq : (drainDue s.commands now).1.mapM
        (fun c => c.get_pathfinding_request map pops parking_sim) = some reqs) :
    ∃ scheds errs,
      Spawner.step s now map pops parking_sim
          = some ({ s with commands := (drainDue s.commands now).2 }, scheds, errs) ∧
        errs = (((drainDue s.commands now).1.zip
              (reqs.zip (calculate_paths map reqs))).filter
            (fun x => x.2.2.isNone)).map
            (fun x => { start := x.2.1.start, «end» := x.2.1.«end», cmd := x.1 }) ∧
        scheds.length = (((drainDue s.commands now).1.zip
              (reqs.zip (calculate_paths map reqs))).filter
            (fun x => x.2.2.isSome)).length ∧
        scheds.length + errs.length = (drainDue s.commands now).1.length := by
  unfold Spawner.step
  dsimp only
  rw [hreq]
  by_cases hE : (drainDue s.commands now).1.isEmpty
  · have hnil : (drainDue s.commands now).1 = [] := List.isEmpty_iff.mp hE
    have hreqs : reqs = [] := by
      rw [hnil] at hreq
      simp only [List.mapM_nil, Option.pure_def, Option.some.injEq] at hreq
      exact hreq.symm
    refine ⟨[], [], ?_, ?_, ?_, ?_⟩
    · simp [hE]
    · rw [hnil]; rfl
    · rw [hnil]; rfl
    · rw [hnil]; rfl
  · refine ⟨_, _, ?_, spawnResults_errs now map pops parking_sim _,
      spawnResults_scheds_length now map pops parking_sim _, ?_⟩
    · simp [hE]
    · rw [spawnResults_length]
      have h1 : reqs.length = (drainDue s.commands now).1.length :=
        mapM_option_length _ hreq
      have h2 : (calculate_paths map reqs).length = reqs.length :=
        List.length_map _ _
      rw [List.length_zip, List.length_zip, h1, h2, h1]
      omega

/-- C4 witness: both due commands of the two-command spawner fail to find a
path under the no-path test map; the step returns normally with an empty
schedule and one error record per command. -/
theorem no_path_logs_and_skips_witness :
    ∃ scheds errs,
      Spawner.step twoCommandSpawner 5 testMapNoPath testParkingOps 0
          = some ({ twoCommandSpawner with
              commands := (drainDue twoCommandSpawner.commands 5).2 },
            scheds, errs) ∧
        errs = (((drainDue twoCommandSpawner.commands 5).1.zip
              ([walkReqB, walkReqA].zip
                (calculate_paths testMapNoPath [walkReqB, walkReqA]))).filter
            (fun x => x.2.2.isNone)).map
            (fun x => { start := x.2.1.start, «end» := x.2.1.«end», cmd := x.1 }) ∧
        scheds.length = (((drainDue twoCommandSpawner.commands 5).1.zip
              ([walkReqB, walkReqA].zip
                (calculate_paths testMapNoPath [walkReqB, walkReqA]))).filter
            (fun x => x.2.2.isSome)).length ∧
        scheds.length + errs.length = (drainDue twoCommandSpawner.commands 5).1.length :=
  no_path_logs_and_skips twoCommandSpawner 5 testMapNoPath testParkingOps 0
    [walkReqB, walkReqA] (by decide)

/-- In a list sorted descending by tick, the first entry `find?` returns with
tick below `base` has the greatest such tick in the list. -/
theorem find_first_lt_max (base : Tick) :
    ∀ {l : List (Tick × String)},
      l.Pairwise (fun a b => savestateOrder b a) →
      ∀ {p : Tick × String},
        l.find? (fun x => decide (x.1 < base)) = some p →
        ∀ q ∈ l, q.1 < base → q.1 ≤ p.1 := by
  intro l
  induction l with
  | nil => intro _ p h; exact Option.noConfusion h
  | cons x xs ih =>
    intro hpw p h q hq hqb
    rw [List.find?_cons] at h
    by_cases hx : x.1 < base
    · have hd : decide (x.1 < base) = true := by simpa using hx
      rw [hd] at h
      dsimp only at h
      injection h with hpx
      rcases List.mem_cons.mp hq with rfl | hq2
      · exact le_of_eq (by rw [hpx])
      · have hqx : savestateOrder q x := (List.pairwise_cons.mp hpw).1 q hq2
        rcases hqx with hlt | ⟨heq, -⟩
        · exact le_of_lt (by rw [← hpx]; exact hlt)
        · exact le_of_eq (by rw [← hpx]; exact heq)
    · have hd : decide (x.1 < base) = false := by simpa using hx
      rw [hd] at h
      dsimp only at h
      rcases List.mem_cons.mp hq with rfl | hq2
      · exact absurd hqb hx
      · exact ih (List.pairwise_cons.mp hpw).2 h q hq2 hqb

/-- C7: `find_previous_savestate(base_time)` returns the path of the on-disk
savestate with the greatest tick strictly below `base_time` (the listing is
sorted ascending and scanned in reverse), and returns an I/O error when no
savestate has a tick strictly below `base_time`. -/
theorem find_previous_savestate_correct (entries : List (Tick × String))
    (base : Tick) :
    ((∃ e ∈ entries, e.1 < base) →
        ∃ e ∈ entries, e.1 < base ∧ (∀ q ∈ entries, q.1 < base → q.1 ≤ e.1) ∧
          find_previous_savestate entries base = .ok e.2) ∧
      ((∀ e ∈ entries, ¬ e.1 < base) →
        find_previous_savestate entries base
          = .error "no savestate before base_time") := by
  have hperm : (find_all_savestates entries).Perm entries :=
    List.perm_insertionSort _ _
  have hsorted : List.Sorted savestateOrder (find_all_savestates entries) :=
    List.sorted_insertionSort _ _
  have hpw : (find_all_savestates entries).reverse.Pairwise
      (fun a b => savestateOrder b a) :=
    List.pairwise_reverse.mpr hsorted
  have hmem : ∀ q : Tick × String,
      q ∈ (find_all_savestates entries).reverse ↔ q ∈ entries := by
    intro q
    rw [List.mem_reverse]
    exact hperm.mem_iff
  constructor
  · rintro ⟨e0, he0, he0b⟩
    cases hf : (find_all_savestates entries).reverse.find?
        (fun x => decide (x.1 < base)) with
    | none =>
      exfalso
      have hx := List.find?_eq_none.mp hf e0 ((hmem e0).mpr he0)
      simp only [decide_eq_true_eq] at hx
      exact hx he0b
    | some p =>
      refine ⟨p, (hmem p).mp (List.mem_of_find?_eq_some hf), ?_, ?_, ?_⟩
      · have hp := List.find?_some hf
        simpa using hp
      · intro q hq hqb
        exact find_first_lt_max base hpw hf q ((hmem q).mpr hq) hqb
      · unfold find_previous_savestate
        dsimp only
        rw [hf]
  · intro hnone
    cases hf : (find_all_savestates entries).reverse.find?
        (fun x => decide (x.1 < base)) with
    | some p =>
      exfalso
      have hp := List.find?_some hf
      simp only [decide_eq_true_eq] at hp
      exact hnone p ((hmem p).mp (List.mem_of_find?_eq_some hf)) hp
    | none =>
      unfold find_previous_savestate
      dsimp only
      rw [hf]

/-- C7 witness: among savestates at ticks 4, 2 and 9, the previous one before
tick 9 is the one at tick 4 (path "t4"), and before tick 2 none exists and an
error is returned. -/
theorem find_previous_savestate_correct_witness :
    (∃ e ∈ [((4 : Tick), "t4"), (2, "t2"), (9, "t9")], e.1 < 9 ∧
        (∀ q ∈ [((4 : Tick), "t4"), (2, "t2"), (9, "t9")], q.1 < 9 → q.1 ≤ e.1) ∧
        find_previous_savestate [((4 : Tick), "t4"), (2, "t2"), (9, "t9")] 9
          = .ok e.2) ∧
      find_previous_savestate [((4 : Tick), "t4"), (2, "t2"), (9, "t9")] 2
        = .error "no savestate before base_time" :=
  ⟨(find_previous_savestate_correct [((4 : Tick), "t4"), (2, "t2"), (9, "t9")] 9).1
      ⟨(4, "t4"), by decide, by decide⟩,
    (find_previous_savestate_correct [((4 : Tick), "t4"), (2, "t2"), (9, "t9")] 2).2
      (by decide)⟩

end AbStreet
